import Mathlib

/-
  Verification of the styling-and-layout core of the neosurf rendering
  engine, as a shallow embedding in Lean 4.

  The embedding translates the relevant C sources:
    - src/src/test/layout_flex_test.c        (flex sizing logic, stacking tests)
    - src/src/test/grid_layout_test.c        (grid layout scenario)
    - src/contrib/libcss/src/parse/properties/transform.c
    - src/contrib/libcss/src/parse/properties/gap.c
    - src/contrib/libcss/src/parse/properties/grid_template_rows.c
    - src/unnamed/part_002                   (css__parse_background_image)
    - src/unnamed/part_004                   (transform cascade/copy/compose)
    - src/contrib/libcss/src/select/properties/grid_template_columns.c
  together with models, built from the specification, of parts of the
  repository whose implementation files are not in the provided tree
  (the REPLACE_DIM replaced-box flag, the stacking sorter, grid layout).

  Machine integers are modelled as Int with the explicit INT_MIN / INT_MAX
  sentinels the C code compares against; fallible operations return values
  of an explicit error enumeration mirroring css_error.
-/

/-! ## Common constants -/

/-- C int INT_MIN, used by the layout code as the AUTO / UNKNOWN sentinel. -/
def INT_MIN : Int := -2147483648

/-- C int INT_MAX, the unbounded sentinel the old flex code used. -/
def INT_MAX : Int := 2147483647

/-! ## Flex layout test logic (src/src/test/layout_flex_test.c)

  The flex test file replicates the decision logic of layout_flex.c as
  small pure functions; those functions are embedded verbatim here. -/

/-- Embeds test_resolve_line_logic (layout_flex_test.c:30):
    the fixed behaviour of layout_flex__resolve_line, substituting the
    content main size when the available main size is AUTO. -/
def test_resolve_line_logic (available_main main_size : Int) : Int :=
  if available_main = INT_MIN then main_size
  else available_main

/-- Embeds test_resolve_line_logic_old (layout_flex_test.c:40): the old
    behaviour, substituting the INT_MAX unbounded sentinel. -/
def test_resolve_line_logic_old (available_main main_size : Int) : Int :=
  if available_main = INT_MIN then INT_MAX
  else available_main

/-- Embeds test_flex_width_clamping (layout_flex_test.c:61): width
    resolution for a flex item with AUTO width, clamped by max-width
    first and min-width second. -/
def test_flex_width_clamping (width max_width min_width calculated_width : Int) : Int :=
  if width = INT_MIN then
    let w1 := calculated_width
    let w2 := if max_width ≥ 0 ∧ w1 > max_width then max_width else w1
    let w3 := if min_width > 0 ∧ w2 < min_width then min_width else w2
    w3
  else width

/-- Embeds test_column_flex_base_size_logic (layout_flex_test.c:150):
    base-size resolution for a flex item with flex-basis auto.  The int
    arguments css_flex_basis_auto and is_horizontal are C truth values
    (zero is false). -/
def test_column_flex_base_size_logic
    (css_flex_basis_auto is_horizontal pre_layout_height post_layout_height : Int) : Int :=
  let base_size :=
    if css_flex_basis_auto ≠ 0 then
      if is_horizontal ≠ 0 then pre_layout_height
      else INT_MIN
    else INT_MIN
  if is_horizontal = 0 ∧ base_size = INT_MIN then post_layout_height
  else base_size

/-- Embeds test_flex_basis_zero_column_logic (layout_flex_test.c:253):
    whether a flex-basis of zero defers base-size resolution to content
    sizing (true only for a column container). -/
def test_flex_basis_zero_column_logic (is_horizontal basis_px : Int) : Bool :=
  is_horizontal = 0 ∧ basis_px = 0

/-! ## Stacking sorter

  The implementation file src/content/handlers/html/stacking.c is not in
  the provided tree; only its test suite is (layout_flex_test.c part 2).
  The sorter is modelled from the spec: "produce paint order ascending by
  z-index, ties broken by original insertion order (stable sort)". -/

/-- An entry of a stacking context, mirroring struct stacking_context
    entries from the stacking test suite: a box reference (opaque id),
    the z-index and the parent-relative offset. -/
structure stacking_entry where
  box : Nat
  z_index : Int
  x_parent : Int
  y_parent : Int
deriving DecidableEq, Repr

/-- Paint order for stacking entries: ascending z-index. -/
def stacking_le (a b : stacking_entry) : Prop := a.z_index ≤ b.z_index

instance : DecidableRel stacking_le := fun a b => Int.decLe a.z_index b.z_index

instance : IsTotal stacking_entry stacking_le := ⟨fun a b => Int.le_total a.z_index b.z_index⟩

instance : IsTrans stacking_entry stacking_le := ⟨fun _ _ _ h h2 => le_trans h h2⟩

instance : IsRefl stacking_entry stacking_le := ⟨fun a => le_refl a.z_index⟩

/-- Modelled from the spec: stacking_context_sort sorts the entry array of
    one stacking context into paint order, ascending by z-index with ties
    kept in original insertion order, as a stable insertion sort. -/
def stacking_context_sort (entries : List stacking_entry) : List stacking_entry :=
  List.insertionSort stacking_le entries

/-! ## Grid layout (modelled from the spec)

  layout_grid lives in src/content/handlers/html/layout_grid.c, which is
  not in the provided tree; only its header (layout_grid.h) and the test
  grid_layout_test.c are.  Track resolution and row-major placement are
  modelled from the spec: fixed and percentage tracks are resolved first,
  the remaining space is distributed across flexible tracks proportional
  to their multiplier (zero if no positive remainder exists). -/

/-- Unit of one grid track: fixed pixels, a percentage, or flexible fr. -/
inductive grid_unit where
  | px
  | pct
  | fr
deriving DecidableEq, Repr

/-- One (magnitude, unit) pair of a grid track list. -/
structure grid_track where
  value : Int
  unit : grid_unit
deriving DecidableEq, Repr

/-- Modelled from the spec: resolve a grid track list against an available
    width.  Fixed and percentage tracks first, then the positive remainder
    is split across fr tracks proportional to their multiplier. -/
def resolve_track_widths (available : Int) (tracks : List grid_track) : List Int :=
  let fixed_sum := (tracks.map (fun t =>
    match t.unit with
    | grid_unit.px => t.value
    | grid_unit.pct => available * t.value / 100
    | grid_unit.fr => 0)).sum
  let fr_sum := (tracks.map (fun t =>
    match t.unit with
    | grid_unit.fr => t.value
    | _ => 0)).sum
  let remaining := max 0 (available - fixed_sum)
  tracks.map (fun t =>
    match t.unit with
    | grid_unit.px => t.value
    | grid_unit.pct => available * t.value / 100
    | grid_unit.fr => if 0 < fr_sum then remaining * t.value / fr_sum else 0)

/-- Modelled from the spec: row-major auto-placement of n grid items into
    the resolved columns; item i occupies column (i mod ncols) of row
    (i / ncols).  Returns (x, y) per item; x is the sum of the widths of
    the preceding columns, y is the row number times the row height. -/
def grid_place_items (col_widths : List Int) (row_height : Int) (n : Nat) : List (Int × Int) :=
  (List.range n).map (fun i =>
    let ncols := col_widths.length
    let col := i % ncols
    let row := i / ncols
    ((col_widths.take col).sum, (row : Int) * row_height))

/-! ## Replaced-box dimension-known flag (modelled from the spec)

  The REPLACE_DIM logic lives in src/content/handlers/html/box_special.c
  (box_image), which is not in the provided tree; the planning document
  src/unnamed/part_000 quotes its core condition:

    if (wtype == CSS_WIDTH_SET and wunit != CSS_UNIT_PCT and
        htype == CSS_HEIGHT_SET and hunit != CSS_UNIT_PCT)
        box->flags |= REPLACE_DIM;

  and the spec fixes the surrounding behaviour: the flag is computed at
  box construction from the resolved style alone (before any fetch), a
  presentational width/height attribute enters as an already-decoded
  pixel value below author priority, and once the flag is set a resource
  completion or failure never changes the geometry and never triggers a
  full box-tree rebuild. -/

/-- css_unit code for pixels (computed-style units). -/
def CSS_UNIT_PX : Nat := 0

/-- css_unit code for percentages (computed-style units). -/
def CSS_UNIT_PCT : Nat := 21

/-- A resolved width or height slot of a computed style: AUTO or a set
    (value, unit) pair. -/
inductive css_dim where
  | auto
  | set (value : Int) (unit : Nat)
deriving DecidableEq, Repr

/-- Modelled from the spec: resolution of one dimension slot from an
    optional author rule and an optional presentational hint.  The hint
    path injects an already-decoded value below author priority; a
    unitless numeric attribute defaults to pixels. -/
def computed_dim (author : Option (Int × Nat)) (hint : Option Int) : css_dim :=
  match author with
  | some (v, u) => css_dim.set v u
  | none =>
    match hint with
    | some v => css_dim.set v CSS_UNIT_PX
    | none => css_dim.auto

/-- A replaced-element box: geometry plus the REPLACE_DIM flag. -/
structure replaced_box where
  width : Int
  height : Int
  replace_dim : Bool
deriving DecidableEq, Repr

/-- The box_special.c condition: both dimensions set and neither in
    percent units. -/
def replace_dim_known (w h : css_dim) : Bool :=
  match w, h with
  | css_dim.set _ wu, css_dim.set _ hu => wu ≠ CSS_UNIT_PCT ∧ hu ≠ CSS_UNIT_PCT
  | _, _ => false

/-- Modelled from the spec and the box_special.c excerpt in part_000:
    construction of a replaced box from the resolved style.  The function
    takes no fetch data, so the flag is fixed before any fetch begins;
    when the dimensions are known the geometry is reserved from the style,
    otherwise it stays at the AUTO sentinel. -/
def box_image (author_w author_h : Option (Int × Nat)) (hint_w hint_h : Option Int) : replaced_box :=
  let w := computed_dim author_w hint_w
  let h := computed_dim author_h hint_h
  if replace_dim_known w h then
    { width := (match w with | css_dim.set v _ => v | css_dim.auto => INT_MIN),
      height := (match h with | css_dim.set v _ => v | css_dim.auto => INT_MIN),
      replace_dim := true }
  else
    { width := INT_MIN, height := INT_MIN, replace_dim := false }

/-- A resource completion event delivered to the reflow coordinator. -/
inductive resource_event where
  | fetch_done (intrinsic_w intrinsic_h : Int)
  | fetch_error
deriving DecidableEq, Repr

/-- Result of the reflow decision: the (possibly updated) box and whether
    a full box-tree rebuild is triggered. -/
structure reflow_result where
  box : replaced_box
  full_rebuild : Bool
deriving DecidableEq, Repr

/-- Modelled from the spec and part_000: reaction to a resource event.
    With REPLACE_DIM set the reserved geometry stands and no rebuild
    happens; without it a successful fetch installs the intrinsic size
    and restarts box conversion, while a failed fetch keeps the fallback
    geometry. -/
def reflow_on_resource (b : replaced_box) (e : resource_event) : reflow_result :=
  if b.replace_dim then { box := b, full_rebuild := false }
  else
    match e with
    | resource_event.fetch_done iw ih =>
      { box := { b with width := iw, height := ih }, full_rebuild := true }
    | resource_event.fetch_error => { box := b, full_rebuild := false }

/-! ## List-valued computed properties: copy and compose

  From src/unnamed/part_004 (transform) and
  src/contrib/libcss/src/select/properties/grid_template_columns.c.
  Heap-allocated arrays are modelled as an explicit store of arrays, a
  pointer being an index into it.  The propset setters (propset.h, not in
  the provided tree) store the pointer they are given: the cascade
  functions free the array themselves only when the value is not
  installed, and css__copy_transform allocates a fresh array before
  calling the setter, both of which only make sense under pointer
  ownership transfer. -/

/-- One decoded transform function (css_transform_function). -/
structure css_transform_function where
  ftype : Nat
  value1 : Int
  unit1 : Nat
  value2 : Int
  unit2 : Nat
deriving DecidableEq, Repr

/-- One computed grid track (css_computed_grid_track). -/
structure css_computed_grid_track where
  value : Int
  unit : Nat
deriving DecidableEq, Repr

/-- The store of heap arrays referenced by computed styles. -/
structure select_heap where
  t_arrays : List (List css_transform_function)
  g_arrays : List (List css_computed_grid_track)
deriving DecidableEq, Repr

/-- Allocate a fresh transform-function array; the new pointer is the
    index of the appended array. -/
def talloc (h : select_heap) (content : List css_transform_function) : select_heap × Nat :=
  ({ h with t_arrays := h.t_arrays ++ [content] }, h.t_arrays.length)

/-- css_error result codes. -/
inductive css_error where
  | CSS_OK
  | CSS_INVALID
  | CSS_NOMEM
deriving DecidableEq, Repr

/-- CSS_TRANSFORM_INHERIT computed value code. -/
def CSS_TRANSFORM_INHERIT : Nat := 0
/-- CSS_TRANSFORM_NONE computed value code. -/
def CSS_TRANSFORM_NONE : Nat := 1
/-- CSS_TRANSFORM_FUNCTIONS computed value code. -/
def CSS_TRANSFORM_FUNCTIONS : Nat := 2

/-- CSS_GRID_TEMPLATE_INHERIT computed value code. -/
def CSS_GRID_TEMPLATE_INHERIT : Nat := 0
/-- CSS_GRID_TEMPLATE_NONE computed value code. -/
def CSS_GRID_TEMPLATE_NONE : Nat := 1
/-- CSS_GRID_TEMPLATE_SET computed value code. -/
def CSS_GRID_TEMPLATE_SET : Nat := 2

/-- The slots of a computed style relevant to the list-valued properties,
    with a style identity (sid) standing for the style object address the
    C code compares with from == to. -/
structure css_computed_style where
  sid : Nat
  transform_type : Nat
  transform_n : Nat
  transform_funcs : Option Nat
  gtc_type : Nat
  gtc_tracks : Option Nat
deriving DecidableEq, Repr

/-- get_transform: type, count and array pointer. -/
def get_transform (s : css_computed_style) : Nat × Nat × Option Nat :=
  (s.transform_type, s.transform_n, s.transform_funcs)

/-- set_transform stores the pointer it is given (ownership transfer). -/
def set_transform (s : css_computed_style) (t : Nat) (n : Nat) (p : Option Nat) : css_computed_style :=
  { s with transform_type := t, transform_n := n, transform_funcs := p }

/-- get_grid_template_columns: type and track array pointer. -/
def get_grid_template_columns (s : css_computed_style) : Nat × Option Nat :=
  (s.gtc_type, s.gtc_tracks)

/-- set_grid_template_columns stores the pointer it is given (ownership
    transfer). -/
def set_grid_template_columns (s : css_computed_style) (t : Nat) (p : Option Nat) : css_computed_style :=
  { s with gtc_type := t, gtc_tracks := p }

/-- Embeds css__copy_transform (src/unnamed/part_004:107): a deep copy of
    the function array through a fresh allocation; alloc_ok models the
    success of malloc. -/
def css__copy_transform (h : select_heap) (alloc_ok : Bool)
    (frm dst : css_computed_style) : Except css_error (css_computed_style × select_heap) :=
  if frm.sid = dst.sid then Except.ok (dst, h)
  else
    let (t, n, fp) := get_transform frm
    match fp with
    | some p =>
      if t = CSS_TRANSFORM_FUNCTIONS ∧ 0 < n then
        if alloc_ok then
          let content := (h.t_arrays[p]?).getD []
          let (h2, np) := talloc h content
          Except.ok (set_transform dst t n (some np), h2)
        else Except.error css_error.CSS_NOMEM
      else Except.ok (set_transform dst t 0 none, h)
    | none => Except.ok (set_transform dst t 0 none, h)

/-- Embeds css__copy_grid_template_columns (grid_template_columns.c:96):
    the track pointer read from the source is stored into the destination
    unchanged; no allocation happens. -/
def css__copy_grid_template_columns (frm dst : css_computed_style) : css_computed_style :=
  if frm.sid = dst.sid then dst
  else
    let (t, p) := get_grid_template_columns frm
    set_grid_template_columns dst t p

/-! ## Token stream and style bytecode model (libcss property value parsing)

  A property value parser walks a parserutils_vector of css_token values
  through an int32 cursor ctx: parserutils_vector_peek returns the token
  at the cursor (or NULL past the end) and parserutils_vector_iterate
  additionally advances the cursor.  Tokens carry their interned string
  (idata); caseless string comparison is modelled by tokens carrying
  lower-cased text.  A css_style is the growing list of bytecode words
  the parser appends to; appends in the model always succeed (CSS_NOMEM
  from the style buffer is not modelled), which is sound for the claims,
  all about the CSS_INVALID behaviour. -/

/-- css_token_type, the token kinds the embedded parsers inspect. -/
inductive css_token_type where
  | sTok
  | identTok
  | functionTok
  | numberTok
  | percentTok
  | dimensionTok
  | uriTok
  | charTok
  | eofTok
deriving DecidableEq, Repr

/-- One css_token: its type, its (lower-cased) text, and for numeric
    tokens the value css__number_from_lwc_string yields together with
    whether that parse consumed the whole string. -/
structure css_token where
  ttype : css_token_type
  text : String
  num : Int
  full_num : Bool
deriving DecidableEq, Repr

/-- tokenIsChar: a CHAR token holding exactly the given character. -/
def tokenIsChar (t : css_token) (c : Char) : Bool :=
  t.ttype = css_token_type.charTok ∧ t.text = String.mk [c]

/-- Number of consecutive whitespace (S) tokens starting at the cursor;
    consumeWhitespace advances the cursor by exactly this amount. -/
def cwSkip (v : List css_token) (ctx : Nat) : Nat :=
  match h : v[ctx]? with
  | some t =>
    if t.ttype = css_token_type.sTok then cwSkip v (ctx + 1) + 1 else 0
  | none => 0
termination_by v.length - ctx
decreasing_by
  have hlt : ctx < v.length := by
    by_contra hc
    rw [List.getElem?_eq_none (Nat.le_of_not_lt hc)] at h
    exact Option.noConfusion h
  omega

/-- consumeWhitespace (parse/properties/utils.h): skip S tokens. -/
def consumeWhitespace (v : List css_token) (ctx : Nat) : Nat :=
  ctx + cwSkip v ctx

/-- Bytecode unit codes (bytecode/bytecode.h): category bits used by the
    validity masks, plus the specific units the parsers emit. -/
def UNIT_PX : Nat := 0
/-- Bytecode unit category bit for angles. -/
def UNIT_ANGLE : Nat := 256
/-- Bytecode unit for degrees (carries the angle bit). -/
def UNIT_DEG : Nat := 256
/-- Bytecode unit category bit for times. -/
def UNIT_TIME : Nat := 512
/-- Bytecode unit category bit for frequencies. -/
def UNIT_FREQ : Nat := 1024
/-- Bytecode unit bit for percentages. -/
def UNIT_PCT : Nat := 2048
/-- Bytecode unit bit for unitless numbers. -/
def UNIT_NUMBER : Nat := 4096
/-- Bytecode unit code for flexible (fr) grid tracks. -/
def UNIT_FR : Nat := 8192

/-- css_fixed uses 10 fractional bits: INTTOFIX. -/
def INTTOFIX (n : Int) : Int := n * 1024

/-- F_100 in css_fixed. -/
def F_100 : Int := 102400

/-- FDIV on css_fixed values (fixed-point division). -/
def FDIV (a b : Int) : Int := a * 1024 / b

/-- Property opcodes (bytecode/opcodes.h); the exact numeric values are
    immaterial to the claims, distinctness is what matters. -/
def CSS_PROP_TRANSFORM : Nat := 1
/-- Opcode of row-gap. -/
def CSS_PROP_ROW_GAP : Nat := 2
/-- Opcode of column-gap. -/
def CSS_PROP_COLUMN_GAP : Nat := 3
/-- Opcode of background-image. -/
def CSS_PROP_BACKGROUND_IMAGE : Nat := 4
/-- Opcode of grid-template-rows. -/
def CSS_PROP_GRID_TEMPLATE_ROWS : Nat := 5

/-- Bytecode values for transform (opcodes.h). -/
def TRANSFORM_NONE : Nat := 0
/-- translate(x, y). -/
def TRANSFORM_TRANSLATE : Nat := 1
/-- translateX(x). -/
def TRANSFORM_TRANSLATEX : Nat := 2
/-- translateY(y). -/
def TRANSFORM_TRANSLATEY : Nat := 3
/-- scale(x, y). -/
def TRANSFORM_SCALE : Nat := 4
/-- scaleX(x). -/
def TRANSFORM_SCALEX : Nat := 5
/-- scaleY(y). -/
def TRANSFORM_SCALEY : Nat := 6
/-- rotate(angle). -/
def TRANSFORM_ROTATE : Nat := 7

/-- Bytecode value: row-gap set to a length. -/
def ROW_GAP_SET : Nat := 1
/-- Bytecode value: row-gap normal. -/
def ROW_GAP_NORMAL : Nat := 0
/-- Bytecode value: column-gap set to a length. -/
def COLUMN_GAP_SET : Nat := 1
/-- Bytecode value: column-gap normal. -/
def COLUMN_GAP_NORMAL : Nat := 0

/-- Bytecode value: background-image none. -/
def BACKGROUND_IMAGE_NONE : Nat := 0
/-- Bytecode value: background-image uri follows. -/
def BACKGROUND_IMAGE_URI : Nat := 1

/-- Bytecode value: grid-template track list follows. -/
def GRID_TEMPLATE_SET : Nat := 2

/-- Flag-value codes (inherit / initial / revert / unset). -/
def FLAG_VALUE_INHERIT : Nat := 1
/-- Flag value: initial. -/
def FLAG_VALUE_INITIAL : Nat := 2
/-- Flag value: revert. -/
def FLAG_VALUE_REVERT : Nat := 3
/-- Flag value: unset. -/
def FLAG_VALUE_UNSET : Nat := 4

/-- One appended bytecode word: an opcode/value word, a flag-value word
    (inherit/initial/revert/unset for a property), or a raw operand. -/
inductive css_code where
  | opv (prop : Nat) (flags : Nat) (value : Nat)
  | flagOpv (prop : Nat) (fv : Nat)
  | raw (w : Int)
deriving DecidableEq, Repr

/-- The output style: the list of bytecode words appended so far. -/
structure css_style where
  bytecode : List css_code
deriving DecidableEq, Repr

/-- css__stylesheet_style_append: append one word. -/
def css__stylesheet_style_append (s : css_style) (w : css_code) : css_style :=
  { bytecode := s.bytecode ++ [w] }

/-- result->used, the append position. -/
def css_style.used (s : css_style) : Nat := s.bytecode.length

/-- Overwrite the word at a position (result->bytecode[pos] = w). -/
def css_style.setAt (s : css_style) (pos : Nat) (w : css_code) : css_style :=
  { bytecode := s.bytecode.set pos w }

/-- get_css_flag_value: recognise inherit / initial / revert / unset. -/
def get_css_flag_value (t : css_token) : Option Nat :=
  if t.ttype = css_token_type.identTok then
    if t.text = "inherit" then some FLAG_VALUE_INHERIT
    else if t.text = "initial" then some FLAG_VALUE_INITIAL
    else if t.text = "revert" then some FLAG_VALUE_REVERT
    else if t.text = "unset" then some FLAG_VALUE_UNSET
    else none
  else none

/-- The parse outcome: error code, final cursor, final style. -/
structure parse_result where
  err : css_error
  ctx : Nat
  style : css_style
deriving DecidableEq, Repr

/-- Abstraction of css__parse_unit_specifier (parse/properties/utils.c,
    whose implementation is not in the provided tree).  Success yields
    (value, bytecode unit, extra): the cursor advances by 1 + extra token
    positions (the function consumes at least the numeric token).
    Failure leaves the cursor untouched, per its documented contract;
    the embedded parsers below rewind explicitly in either case, so the
    claims do not depend on the failure behaviour. -/
def UnitSpec : Type := List css_token → Nat → Except css_error (Int × Nat × Nat)

/-! ## css__parse_gap (src/contrib/libcss/src/parse/properties/gap.c) -/

/-- Embeds css__parse_gap: the gap shorthand.  Parses one or two
    non-negative length/percentage values (or the normal keyword, or a
    flag value) and emits row-gap followed by column-gap.  Every
    CSS_INVALID return restores the cursor to its entry value and leaves
    the style untouched. -/
def css__parse_gap (pus : UnitSpec) (v : List css_token) (ctx0 : Nat)
    (result : css_style) : parse_result :=
  let orig_ctx := ctx0
  match v[ctx0]? with
  | none => ⟨css_error.CSS_INVALID, orig_ctx, result⟩
  | some token =>
    match get_css_flag_value token with
    | some fv =>
      let s1 := css__stylesheet_style_append result (css_code.flagOpv CSS_PROP_ROW_GAP fv)
      let s2 := css__stylesheet_style_append s1 (css_code.flagOpv CSS_PROP_COLUMN_GAP fv)
      ⟨css_error.CSS_OK, ctx0 + 1, s2⟩
    | none =>
      if token.ttype = css_token_type.identTok ∧ token.text = "normal" then
        let s1 := css__stylesheet_style_append result
          (css_code.opv CSS_PROP_ROW_GAP 0 ROW_GAP_NORMAL)
        let s2 := css__stylesheet_style_append s1
          (css_code.opv CSS_PROP_COLUMN_GAP 0 COLUMN_GAP_NORMAL)
        ⟨css_error.CSS_OK, ctx0 + 1, s2⟩
      else
        match pus v ctx0 with
        | Except.error e => ⟨e, orig_ctx, result⟩
        | Except.ok (len0, unit0, extra0) =>
          if unit0 &&& UNIT_ANGLE ≠ 0 ∨ unit0 &&& UNIT_TIME ≠ 0 ∨ unit0 &&& UNIT_FREQ ≠ 0 then
            ⟨css_error.CSS_INVALID, orig_ctx, result⟩
          else if len0 < 0 then
            ⟨css_error.CSS_INVALID, orig_ctx, result⟩
          else
            let c1 := ctx0 + 1 + extra0
            let c2 := consumeWhitespace v c1
            -- optional second value; an unusable second value is ignored
            let second : Option (Int × Nat × Nat) :=
              match v[c2]? with
              | some t2 =>
                if t2.ttype ≠ css_token_type.eofTok then
                  match pus v c2 with
                  | Except.ok (len1, unit1, extra1) =>
                    if unit1 &&& UNIT_ANGLE ≠ 0 ∨ unit1 &&& UNIT_TIME ≠ 0 ∨
                        unit1 &&& UNIT_FREQ ≠ 0 then none
                    else if len1 < 0 then none
                    else some (len1, unit1, c2 + 1 + extra1)
                  | Except.error _ => none
                else none
              | none => none
            let (len1, unit1, cEnd) :=
              match second with
              | some (l, u, c) => (l, u, c)
              | none => (len0, unit0, c2)
            let s1 := css__stylesheet_style_append result
              (css_code.opv CSS_PROP_ROW_GAP 0 ROW_GAP_SET)
            let s2 := css__stylesheet_style_append s1 (css_code.raw len0)
            let s3 := css__stylesheet_style_append s2 (css_code.raw (Int.ofNat unit0))
            let s4 := css__stylesheet_style_append s3
              (css_code.opv CSS_PROP_COLUMN_GAP 0 COLUMN_GAP_SET)
            let s5 := css__stylesheet_style_append s4 (css_code.raw len1)
            let s6 := css__stylesheet_style_append s5 (css_code.raw (Int.ofNat unit1))
            ⟨css_error.CSS_OK, cEnd, s6⟩

/-! ## css__parse_transform (src/contrib/libcss/src/parse/properties/transform.c)

  parse_transform_function rewinds its cursor to its own entry position
  on every failure; the cursor is therefore modelled as entry + delta
  with delta = 0 on failure. -/

/-- Result of parse_transform_function: error, cursor movement relative
    to the entry cursor (0 whenever the function fails, mirroring the
    *ctx = orig_ctx rewind), and the style. -/
structure ptf_result where
  err : css_error
  delta : Nat
  style : css_style
deriving DecidableEq, Repr

/-- Embeds parse_transform_function (transform.c:29): parse the argument
    list of one transform function, the opening parenthesis having been
    consumed by the caller, through the closing parenthesis, and append
    the function type and its operands. -/
def parse_transform_function (pus : UnitSpec) (v : List css_token) (entry : Nat)
    (result : css_style) (func_type num_args : Nat) (allow_pct is_angle : Bool) : ptf_result :=
  let is_scale := func_type = TRANSFORM_SCALE ∨ func_type = TRANSFORM_SCALEX ∨
    func_type = TRANSFORM_SCALEY
  let c1 := consumeWhitespace v entry
  -- first argument
  let first : Except css_error (Int × Nat × Nat) :=
    if is_angle then
      match pus v c1 with
      | Except.error e => Except.error e
      | Except.ok (v1, u1, ex) =>
        if u1 &&& UNIT_ANGLE = 0 then Except.error css_error.CSS_INVALID
        else Except.ok (v1, u1, c1 + 1 + ex)
    else if is_scale then
      match v[c1]? with
      | none => Except.error css_error.CSS_INVALID
      | some t =>
        if t.ttype ≠ css_token_type.numberTok ∧ t.ttype ≠ css_token_type.percentTok then
          Except.error css_error.CSS_INVALID
        else if ¬ t.full_num then Except.error css_error.CSS_INVALID
        else if t.ttype = css_token_type.percentTok then
          Except.ok (FDIV t.num F_100, UNIT_PCT, c1 + 1)
        else Except.ok (t.num, UNIT_NUMBER, c1 + 1)
    else
      match pus v c1 with
      | Except.error e => Except.error e
      | Except.ok (v1, u1, ex) =>
        if u1 &&& UNIT_ANGLE ≠ 0 ∨ u1 &&& UNIT_TIME ≠ 0 ∨ u1 &&& UNIT_FREQ ≠ 0 then
          Except.error css_error.CSS_INVALID
        else if ¬ allow_pct ∧ u1 &&& UNIT_PCT ≠ 0 then
          Except.error css_error.CSS_INVALID
        else Except.ok (v1, u1, c1 + 1 + ex)
  match first with
  | Except.error e => ⟨e, 0, result⟩
  | Except.ok (value1, unit1, c2) =>
    let c3 := consumeWhitespace v c2
    -- optional second argument
    let second : Except css_error (Int × Nat × Nat) :=
      if num_args = 2 then
        match v[c3]? with
        | some t =>
          if tokenIsChar t ',' then
            -- consume the comma
            let c4 := consumeWhitespace v (c3 + 1)
            let parsed : Except css_error (Int × Nat × Nat) :=
              if is_angle then
                match pus v c4 with
                | Except.error e => Except.error e
                | Except.ok (v2, u2, ex) => Except.ok (v2, u2, c4 + 1 + ex)
              else if is_scale then
                match v[c4]? with
                | none => Except.error css_error.CSS_INVALID
                | some t2 =>
                  if t2.ttype ≠ css_token_type.numberTok ∧
                      t2.ttype ≠ css_token_type.percentTok then
                    Except.error css_error.CSS_INVALID
                  else if ¬ t2.full_num then Except.error css_error.CSS_INVALID
                  else if t2.ttype = css_token_type.percentTok then
                    Except.ok (FDIV t2.num F_100, UNIT_PCT, c4 + 1)
                  else Except.ok (t2.num, UNIT_NUMBER, c4 + 1)
              else
                match pus v c4 with
                | Except.error e => Except.error e
                | Except.ok (v2, u2, ex) => Except.ok (v2, u2, c4 + 1 + ex)
            match parsed with
            | Except.error e => Except.error e
            | Except.ok (v2, u2, c5) => Except.ok (v2, u2, consumeWhitespace v c5)
          else
            -- no second argument: defaults
            if func_type = TRANSFORM_TRANSLATE then Except.ok (0, UNIT_PX, c3)
            else if func_type = TRANSFORM_SCALE then Except.ok (value1, unit1, c3)
            else Except.ok (0, 0, c3)
        | none =>
          if func_type = TRANSFORM_TRANSLATE then Except.ok (0, UNIT_PX, c3)
          else if func_type = TRANSFORM_SCALE then Except.ok (value1, unit1, c3)
          else Except.ok (0, 0, c3)
      else Except.ok (0, 0, c3)
    match second with
    | Except.error e => ⟨e, 0, result⟩
    | Except.ok (value2, unit2, c6) =>
      -- closing parenthesis
      match v[c6]? with
      | none => ⟨css_error.CSS_INVALID, 0, result⟩
      | some t =>
        if ¬ tokenIsChar t ')' then ⟨css_error.CSS_INVALID, 0, result⟩
        else
          let s1 := css__stylesheet_style_append result (css_code.raw (Int.ofNat func_type))
          let s2 := css__stylesheet_style_append s1 (css_code.raw value1)
          let s3 := css__stylesheet_style_append s2 (css_code.raw (Int.ofNat unit1))
          let s4 :=
            if num_args = 2 ∨ func_type = TRANSFORM_TRANSLATE ∨ func_type = TRANSFORM_SCALE then
              css__stylesheet_style_append
                (css__stylesheet_style_append s3 (css_code.raw value2))
                (css_code.raw (Int.ofNat unit2))
            else s3
          ⟨css_error.CSS_OK, c6 + 1 - entry, s4⟩

/-- Which transform function a FUNCTION token names, with its bytecode
    type, argument count, percentage permission and angle flag
    (transform.c:267). -/
def transformFuncSpec (t : String) : Option (Nat × Nat × Bool × Bool) :=
  if t = "translate" then some (TRANSFORM_TRANSLATE, 2, true, false)
  else if t = "translatex" then some (TRANSFORM_TRANSLATEX, 1, true, false)
  else if t = "translatey" then some (TRANSFORM_TRANSLATEY, 1, true, false)
  else if t = "scale" then some (TRANSFORM_SCALE, 2, true, false)
  else if t = "scalex" then some (TRANSFORM_SCALEX, 1, true, false)
  else if t = "scaley" then some (TRANSFORM_SCALEY, 1, true, false)
  else if t = "rotate" then some (TRANSFORM_ROTATE, 1, false, true)
  else none

/-- The post-loop tail of css__parse_transform: fail with the cursor
    rewound when no function was parsed, else patch the function count
    into the remembered position. -/
def transformFinish (orig_ctx count_pos ctx : Nat) (style : css_style)
    (func_count : Nat) : parse_result :=
  if func_count = 0 then ⟨css_error.CSS_INVALID, orig_ctx, style⟩
  else ⟨css_error.CSS_OK, ctx, style.setAt count_pos (css_code.raw (Int.ofNat func_count))⟩

/-- Embeds the function-list loop of css__parse_transform
    (transform.c:253): iterate one token; stop at end of input or at a
    non-function token (putting the latter back after the whitespace
    skip, as the C does); parse a known function or fail rewinding to
    the overall entry cursor. -/
def transformLoop (pus : UnitSpec) (v : List css_token) (orig_ctx count_pos : Nat)
    (ctx : Nat) (style : css_style) (func_count : Nat) : parse_result :=
  match h : v[ctx]? with
  | none => transformFinish orig_ctx count_pos ctx style func_count
  | some token =>
    let c2 := consumeWhitespace v (ctx + 1)
    if token.ttype ≠ css_token_type.functionTok then
      transformFinish orig_ctx count_pos (c2 - 1) style func_count
    else
      match transformFuncSpec token.text with
      | none => ⟨css_error.CSS_INVALID, orig_ctx, style⟩
      | some (ftype, nargs, apct, iang) =>
        let r := parse_transform_function pus v c2 style ftype nargs apct iang
        if r.err ≠ css_error.CSS_OK then ⟨r.err, orig_ctx, style⟩
        else
          transformLoop pus v orig_ctx count_pos
            (consumeWhitespace v (c2 + r.delta)) r.style (func_count + 1)
termination_by v.length - ctx
decreasing_by
  have hlt : ctx < v.length := by
    by_contra hc
    rw [List.getElem?_eq_none (Nat.le_of_not_lt hc)] at h
    exact Option.noConfusion h
  simp only [consumeWhitespace]
  omega

/-- Embeds css__parse_transform (transform.c:196): flag values and none
    are single-token cases; otherwise the opcode and a count placeholder
    are appended, the cursor is reset to the entry position and the
    function list is parsed. -/
def css__parse_transform (pus : UnitSpec) (v : List css_token) (ctx0 : Nat)
    (result : css_style) : parse_result :=
  let orig_ctx := ctx0
  match v[ctx0]? with
  | none => ⟨css_error.CSS_INVALID, orig_ctx, result⟩
  | some token =>
    match get_css_flag_value token with
    | some fv =>
      ⟨css_error.CSS_OK, ctx0 + 1,
        css__stylesheet_style_append result (css_code.flagOpv CSS_PROP_TRANSFORM fv)⟩
    | none =>
      if token.ttype = css_token_type.identTok ∧ token.text = "none" then
        ⟨css_error.CSS_OK, ctx0 + 1,
          css__stylesheet_style_append result (css_code.opv CSS_PROP_TRANSFORM 0 TRANSFORM_NONE)⟩
      else
        let s1 := css__stylesheet_style_append result
          (css_code.opv CSS_PROP_TRANSFORM 0 (TRANSFORM_NONE + 1))
        let count_pos := s1.used
        let s2 := css__stylesheet_style_append s1 (css_code.raw 0)
        transformLoop pus v orig_ctx count_pos orig_ctx s2 0

/-! ## css__parse_background_image (src/unnamed/part_002) -/

/-- Abstraction of the composition of c->sheet->resolve and
    css__stylesheet_string_add on a URI token (both outside the provided
    tree): either an error, or the string number of the resolved URI. -/
def UriResolve : Type := String → Except css_error Nat

/-- The gradient skip loop of css__parse_background_image: starting
    inside the gradient function at nesting depth 1, iterate tokens,
    nesting on FUNCTION tokens and unnesting on closing parentheses,
    until the matching close; none when the input ends first. -/
def skipGradient (v : List css_token) (ctx : Nat) (depth : Nat) : Option Nat :=
  if depth = 0 then some ctx
  else
    match h : v[ctx]? with
    | none => none
    | some t =>
      let d2 :=
        if t.ttype = css_token_type.functionTok then depth + 1
        else if tokenIsChar t ')' then depth - 1
        else depth
      skipGradient v (ctx + 1) d2
termination_by v.length - ctx
decreasing_by
  have hlt : ctx < v.length := by
    by_contra hc
    rw [List.getElem?_eq_none (Nat.le_of_not_lt hc)] at h
    exact Option.noConfusion h
  omega

/-- Embeds css__parse_background_image (part_002:36): none and the flag
    values store directly, a URI stores a resolved string number, and a
    linear-gradient() or radial-gradient() function is skipped through
    its matching closing parenthesis and stored as none (the fallback
    that keeps a background colour visible). -/
def css__parse_background_image (resolve : UriResolve) (v : List css_token)
    (ctx0 : Nat) (result : css_style) : parse_result :=
  let orig_ctx := ctx0
  match v[ctx0]? with
  | none => ⟨css_error.CSS_INVALID, orig_ctx, result⟩
  | some token =>
    if token.ttype = css_token_type.identTok then
      if token.text = "inherit" then
        ⟨css_error.CSS_OK, ctx0 + 1, css__stylesheet_style_append result
          (css_code.flagOpv CSS_PROP_BACKGROUND_IMAGE FLAG_VALUE_INHERIT)⟩
      else if token.text = "none" then
        ⟨css_error.CSS_OK, ctx0 + 1, css__stylesheet_style_append result
          (css_code.opv CSS_PROP_BACKGROUND_IMAGE 0 BACKGROUND_IMAGE_NONE)⟩
      else if token.text = "initial" then
        ⟨css_error.CSS_OK, ctx0 + 1, css__stylesheet_style_append result
          (css_code.flagOpv CSS_PROP_BACKGROUND_IMAGE FLAG_VALUE_INITIAL)⟩
      else if token.text = "revert" then
        ⟨css_error.CSS_OK, ctx0 + 1, css__stylesheet_style_append result
          (css_code.flagOpv CSS_PROP_BACKGROUND_IMAGE FLAG_VALUE_REVERT)⟩
      else if token.text = "unset" then
        ⟨css_error.CSS_OK, ctx0 + 1, css__stylesheet_style_append result
          (css_code.flagOpv CSS_PROP_BACKGROUND_IMAGE FLAG_VALUE_UNSET)⟩
      else ⟨css_error.CSS_INVALID, orig_ctx, result⟩
    else if token.ttype = css_token_type.uriTok then
      match resolve token.text with
      | Except.error e => ⟨e, orig_ctx, result⟩
      | Except.ok snumber =>
        let s1 := css__stylesheet_style_append result
          (css_code.opv CSS_PROP_BACKGROUND_IMAGE 0 BACKGROUND_IMAGE_URI)
        let s2 := css__stylesheet_style_append s1 (css_code.raw (Int.ofNat snumber))
        ⟨css_error.CSS_OK, ctx0 + 1, s2⟩
    else if token.ttype = css_token_type.functionTok ∧
        (token.text = "linear-gradient" ∨ token.text = "radial-gradient") then
      match skipGradient v (ctx0 + 1) 1 with
      | none => ⟨css_error.CSS_INVALID, orig_ctx, result⟩
      | some cEnd =>
        ⟨css_error.CSS_OK, cEnd, css__stylesheet_style_append result
          (css_code.opv CSS_PROP_BACKGROUND_IMAGE 0 BACKGROUND_IMAGE_NONE)⟩
    else ⟨css_error.CSS_INVALID, orig_ctx, result⟩

/-- Declarative nesting-depth contribution of one token inside a
    gradient: FUNCTION opens a level, a closing parenthesis closes one. -/
def gradStepVal (t : css_token) : Int :=
  if t.ttype = css_token_type.functionTok then 1
  else if tokenIsChar t ')' then -1
  else 0

/-- Declarative nesting depth after reading n tokens of the gradient
    body, having entered the gradient at depth 1. -/
def gradDepth (ts : List css_token) (n : Nat) : Int :=
  1 + ((ts.take n).map gradStepVal).sum

/-- A gradient body is well formed with closing length n when the depth
    stays positive strictly before n and first returns to zero at n:
    token n - 1 is the closing parenthesis matching the opening one. -/
def gradWellFormed (ts : List css_token) (n : Nat) : Prop :=
  n ≤ ts.length ∧ (∀ m, m < n → 0 < gradDepth ts m) ∧ gradDepth ts n = 0

instance (ts : List css_token) (n : Nat) : Decidable (gradWellFormed ts n) := by
  unfold gradWellFormed
  infer_instance

/-! ## css__parse_grid_template_rows
  (src/contrib/libcss/src/parse/properties/grid_template_rows.c) -/

/-- MAX_GRID_TRACKS (grid_template_rows.c:16). -/
def MAX_GRID_TRACKS : Nat := 32

/-- Outcome of the track-collection loop: fell out of the loop with a
    cursor and the collected (value, unit) tracks, or a hard error that
    aborts the parse. -/
inductive grid_loop_result where
  | done (ctx : Nat) (tracks : List (Int × Nat))
  | fail (e : css_error)
deriving DecidableEq, Repr

/-- Embeds the track loop of css__parse_grid_template_rows
    (grid_template_rows.c:108): while fewer than MAX_GRID_TRACKS tracks
    are collected, try a unit specifier; on CSS_INVALID accept a literal
    auto keyword as a 1fr track, otherwise stop; any other error aborts. -/
def gridRowsLoop (pus : UnitSpec) (v : List css_token) (ctx : Nat)
    (tracks : List (Int × Nat)) : grid_loop_result :=
  if tracks.length < MAX_GRID_TRACKS then
    match h : v[ctx]? with
    | none => grid_loop_result.done ctx tracks
    | some _ =>
      match pus v ctx with
      | Except.ok (len, unit, extra) =>
        gridRowsLoop pus v (ctx + 1 + extra) (tracks ++ [(len, unit)])
      | Except.error css_error.CSS_INVALID =>
        match v[ctx]? with
        | some t =>
          if t.ttype = css_token_type.identTok ∧ t.text = "auto" then
            gridRowsLoop pus v (ctx + 1) (tracks ++ [(INTTOFIX 1, UNIT_FR)])
          else grid_loop_result.done ctx tracks
        | none => grid_loop_result.done ctx tracks
      | Except.error e => grid_loop_result.fail e
  else grid_loop_result.done ctx tracks
termination_by v.length - ctx
decreasing_by
  all_goals
    have hlt : ctx < v.length := by
      by_contra hc
      rw [List.getElem?_eq_none (Nat.le_of_not_lt hc)] at h
      exact Option.noConfusion h
    omega

/-- The emit_tracks tail of css__parse_grid_template_rows: the opcode,
    the track count, then each (value, unit) pair. -/
def emit_tracks (result : css_style) (tracks : List (Int × Nat)) : css_style :=
  let s1 := css__stylesheet_style_append result
    (css_code.opv CSS_PROP_GRID_TEMPLATE_ROWS 0 GRID_TEMPLATE_SET)
  let s2 := css__stylesheet_style_append s1 (css_code.raw (Int.ofNat tracks.length))
  tracks.foldl (fun s tr =>
    css__stylesheet_style_append
      (css__stylesheet_style_append s (css_code.raw tr.1))
      (css_code.raw (Int.ofNat tr.2))) s2

/-- Embeds css__parse_grid_template_rows (grid_template_rows.c:32):
    keyword values first (a leading auto keyword emits a single 1fr
    track), otherwise the cursor is reset to the entry position and the
    track loop runs, failing when it collected no track. -/
def css__parse_grid_template_rows (pus : UnitSpec) (v : List css_token)
    (ctx0 : Nat) (result : css_style) : parse_result :=
  let orig_ctx := ctx0
  match v[ctx0]? with
  | none => ⟨css_error.CSS_INVALID, orig_ctx, result⟩
  | some token =>
    if token.ttype = css_token_type.identTok ∧ token.text = "inherit" then
      ⟨css_error.CSS_OK, ctx0 + 1, css__stylesheet_style_append result
        (css_code.flagOpv CSS_PROP_GRID_TEMPLATE_ROWS FLAG_VALUE_INHERIT)⟩
    else if token.ttype = css_token_type.identTok ∧ token.text = "initial" then
      ⟨css_error.CSS_OK, ctx0 + 1, css__stylesheet_style_append result
        (css_code.opv CSS_PROP_GRID_TEMPLATE_ROWS 0 CSS_GRID_TEMPLATE_NONE)⟩
    else if token.ttype = css_token_type.identTok ∧ token.text = "revert" then
      ⟨css_error.CSS_OK, ctx0 + 1, css__stylesheet_style_append result
        (css_code.flagOpv CSS_PROP_GRID_TEMPLATE_ROWS FLAG_VALUE_REVERT)⟩
    else if token.ttype = css_token_type.identTok ∧ token.text = "unset" then
      ⟨css_error.CSS_OK, ctx0 + 1, css__stylesheet_style_append result
        (css_code.opv CSS_PROP_GRID_TEMPLATE_ROWS FLAG_VALUE_UNSET 0)⟩
    else if token.ttype = css_token_type.identTok ∧ token.text = "none" then
      ⟨css_error.CSS_OK, ctx0 + 1, css__stylesheet_style_append result
        (css_code.opv CSS_PROP_GRID_TEMPLATE_ROWS 0 CSS_GRID_TEMPLATE_NONE)⟩
    else if token.ttype = css_token_type.identTok ∧ token.text = "auto" then
      ⟨css_error.CSS_OK, ctx0 + 1, emit_tracks result [(INTTOFIX 1, UNIT_FR)]⟩
    else
      match gridRowsLoop pus v orig_ctx [] with
      | grid_loop_result.fail e => ⟨e, orig_ctx, result⟩
      | grid_loop_result.done c tracks =>
        if tracks = [] then ⟨css_error.CSS_INVALID, orig_ctx, result⟩
        else ⟨css_error.CSS_OK, c, emit_tracks result tracks⟩

/-! ## Concrete instances used to evaluate the parsers -/

/-- An IDENT token. -/
def mkIdent (s : String) : css_token := ⟨css_token_type.identTok, s, 0, false⟩

/-- A FUNCTION token (the name, open parenthesis included in the token). -/
def mkFunc (s : String) : css_token := ⟨css_token_type.functionTok, s, 0, false⟩

/-- A CHAR token. -/
def mkChar (c : Char) : css_token := ⟨css_token_type.charTok, String.mk [c], 0, false⟩

/-- A NUMBER token carrying a css_fixed value. -/
def mkNum (n : Int) : css_token := ⟨css_token_type.numberTok, "", n, true⟩

/-- A unit specifier that always fails with CSS_INVALID. -/
def pusFail : UnitSpec := fun _ _ => Except.error css_error.CSS_INVALID

/-- A unit specifier that accepts exactly one NUMBER token as a pixel
    length, consuming that single token. -/
def pusNum : UnitSpec := fun v ctx =>
  match v[ctx]? with
  | some t =>
    if t.ttype = css_token_type.numberTok ∧ t.full_num then
      Except.ok (t.num, UNIT_PX, 0)
    else Except.error css_error.CSS_INVALID
  | none => Except.error css_error.CSS_INVALID

/-- A URI resolver that always succeeds with string number 0. -/
def resolveOk : UriResolve := fun _ => Except.ok 0

/-- The fixed heap, source style and destination style used to evaluate
    the copy operations: the source owns transform-function array 0 and
    grid-track array 0. -/
def c5_heap : select_heap :=
  ⟨[[⟨TRANSFORM_TRANSLATE, 1024, UNIT_PX, 0, UNIT_PX⟩]], [[⟨102400, UNIT_PX⟩, ⟨0, 0⟩]]⟩

/-- Source computed style: transform function list and grid track list set. -/
def c5_from : css_computed_style :=
  ⟨0, CSS_TRANSFORM_FUNCTIONS, 1, some 0, CSS_GRID_TEMPLATE_SET, some 0⟩

/-- Destination computed style: fresh, holding no lists. -/
def c5_dst : css_computed_style :=
  ⟨1, CSS_TRANSFORM_NONE, 0, none, CSS_GRID_TEMPLATE_NONE, none⟩

/-- The six-entry stacking input of stacking_context_negative_zindex_test. -/
def c6_entries : List stacking_entry :=
  [⟨1, 10, 0, 0⟩, ⟨2, -5, 0, 0⟩, ⟨3, 5, 0, 0⟩, ⟨4, -100, 0, 0⟩, ⟨5, 0, 0, 0⟩, ⟨6, -1, 0, 0⟩]

/-! ## Theorems -/

/-- C3: in the flex space-distribution clamp, the resolved size is
    clamped by max-size first then min-size; whenever both bounds are
    defined and consistent the result lies in [min, max], and a
    contradictory pair (min greater than max) resolves to the minimum. -/
theorem flex_clamp_bounds (max_width min_width calculated_width : Int) :
    (0 ≤ max_width → 0 < min_width → min_width ≤ max_width →
      min_width ≤ test_flex_width_clamping INT_MIN max_width min_width calculated_width ∧
      test_flex_width_clamping INT_MIN max_width min_width calculated_width ≤ max_width) ∧
    (0 ≤ max_width → 0 < min_width → max_width < min_width →
      test_flex_width_clamping INT_MIN max_width min_width calculated_width = min_width) := by
  simp only [test_flex_width_clamping, if_pos rfl]
  constructor
  · intro h1 h2 h3
    constructor <;> split_ifs <;> omega
  · intro h1 h2 h3
    split_ifs <;> omega

/-- Witness for C3 at the test inputs: auto width 800 clamped into
    [300, 600], and a contradictory pair min 200 / max 100 resolving
    to 200. -/
theorem flex_clamp_bounds_witness :
    (300 ≤ test_flex_width_clamping INT_MIN 600 300 800 ∧
      test_flex_width_clamping INT_MIN 600 300 800 ≤ 600) ∧
    test_flex_width_clamping INT_MIN 100 200 150 = 200 :=
  ⟨(flex_clamp_bounds 600 300 800).1 (by decide) (by decide) (by decide),
    (flex_clamp_bounds 100 200 150).2 (by decide) (by decide) (by decide)⟩

/-- C4: a deferred flex basis in a column container resolves to the
    post-layout content height (139 in the scenario), never the
    pre-layout one, while a row container keeps the pre-layout measured
    width; flex-basis zero defers exactly for column containers. -/
theorem column_flex_base_size_post_layout (pre post : Int) :
    test_column_flex_base_size_logic 1 0 pre post = post ∧
    test_column_flex_base_size_logic 1 1 pre post = pre ∧
    test_flex_basis_zero_column_logic 0 0 = true ∧
    test_flex_basis_zero_column_logic 1 0 = false ∧
    test_flex_basis_zero_column_logic 0 100 = false ∧
    test_column_flex_base_size_logic 1 0 22 139 = 139 ∧
    test_column_flex_base_size_logic 1 0 22 139 ≠ 22 := by
  refine ⟨?_, ?_, by decide, by decide, by decide, by decide, by decide⟩ <;>
    simp [test_column_flex_base_size_logic]

/-- C9: with an indefinite (AUTO) container main size, the line resolves
    its available main size to the sum of the item base sizes, not to the
    INT_MAX sentinel of the old behaviour; a definite main size passes
    through unchanged. -/
theorem resolve_line_sum_of_bases (a : Int) (base_sizes : List Int) :
    test_resolve_line_logic INT_MIN base_sizes.sum = base_sizes.sum ∧
    (a ≠ INT_MIN → test_resolve_line_logic a base_sizes.sum = a) ∧
    (base_sizes.sum ≠ INT_MAX →
      test_resolve_line_logic INT_MIN base_sizes.sum ≠ INT_MAX ∧
      test_resolve_line_logic INT_MIN base_sizes.sum ≠
        test_resolve_line_logic_old INT_MIN base_sizes.sum) := by
  refine ⟨by simp [test_resolve_line_logic], fun h => ?_, fun h => ⟨?_, ?_⟩⟩ <;>
    simp [test_resolve_line_logic, test_resolve_line_logic_old, h]

/-- Witness for C9: a definite available size passes through, and the
    base-size sum 300 is used for an AUTO container without becoming
    INT_MAX. -/
theorem resolve_line_sum_of_bases_witness :
    test_resolve_line_logic 500 ([100, 200] : List Int).sum = 500 ∧
    test_resolve_line_logic INT_MIN ([100, 200] : List Int).sum ≠ INT_MAX :=
  ⟨(resolve_line_sum_of_bases 500 [100, 200]).2.1 (by decide),
    ((resolve_line_sum_of_bases 500 [100, 200]).2.2 (by decide)).1⟩

/-- C7: a 300px grid with three 1fr columns resolves each column to
    100px and places three items left to right in one row with no
    horizontal overlap. -/
theorem grid_three_equal_fr_columns :
    resolve_track_widths 300 [⟨1, grid_unit.fr⟩, ⟨1, grid_unit.fr⟩, ⟨1, grid_unit.fr⟩] =
      [100, 100, 100] ∧
    grid_place_items
      (resolve_track_widths 300 [⟨1, grid_unit.fr⟩, ⟨1, grid_unit.fr⟩, ⟨1, grid_unit.fr⟩])
      50 3 = [(0, 0), (100, 0), (200, 0)] ∧
    (((grid_place_items [100, 100, 100] 50 3).getD 0 (0, 0)).1 +
        ((resolve_track_widths 300 [⟨1, grid_unit.fr⟩, ⟨1, grid_unit.fr⟩,
          ⟨1, grid_unit.fr⟩]).getD 0 0) ≤
      ((grid_place_items [100, 100, 100] 50 3).getD 1 (0, 0)).1) ∧
    (((grid_place_items [100, 100, 100] 50 3).getD 1 (0, 0)).1 +
        ((resolve_track_widths 300 [⟨1, grid_unit.fr⟩, ⟨1, grid_unit.fr⟩,
          ⟨1, grid_unit.fr⟩]).getD 1 0) ≤
      ((grid_place_items [100, 100, 100] 50 3).getD 2 (0, 0)).1) ∧
    ((grid_place_items [100, 100, 100] 50 3).getD 0 (0, 0)).2 =
      ((grid_place_items [100, 100, 100] 50 3).getD 2 (0, 0)).2 := by
  decide

/-- C1: a replaced box whose resolved style supplies both a
    non-percentage width and height (author rule or presentational hint)
    is marked dimension-known at construction, and once the flag is set a
    resource completion or fetch failure never changes the geometry and
    never triggers a full rebuild; an image with width=200 height=150
    attributes keeps its 200x150 geometry across a fetch failure. -/
theorem replace_dim_construction_invariant (aw ah : Option (Int × Nat))
    (hw hh : Option Int) (e : resource_event) (b : replaced_box) :
    (replace_dim_known (computed_dim aw hw) (computed_dim ah hh) = true →
      (box_image aw ah hw hh).replace_dim = true) ∧
    (b.replace_dim = true →
      reflow_on_resource b e = { box := b, full_rebuild := false }) ∧
    box_image none none (some 200) (some 150) =
      { width := 200, height := 150, replace_dim := true } ∧
    reflow_on_resource (box_image none none (some 200) (some 150))
      resource_event.fetch_error =
      { box := { width := 200, height := 150, replace_dim := true },
        full_rebuild := false } := by
  refine ⟨fun h => ?_, fun h => ?_, by decide, by decide⟩
  · simp only [box_image, h, if_pos]
  · simp [reflow_on_resource, h]

/-- Witness for C1: a completed fetch for the dimension-known 200x150
    image box leaves it untouched with no rebuild. -/
theorem replace_dim_construction_invariant_witness :
    reflow_on_resource (box_image none none (some 200) (some 150))
      (resource_event.fetch_done 640 480) =
      { box := box_image none none (some 200) (some 150), full_rebuild := false } :=
  (replace_dim_construction_invariant none none (some 200) (some 150)
    (resource_event.fetch_done 640 480) (box_image none none (some 200) (some 150))).2.1
    (by decide)

/-- C5 (failing-input evaluation): copying grid-template-columns between
    two distinct styles stores the same track-array pointer in the
    destination (shared mutable storage, not a deep copy), while the
    transform copy on the same shapes allocates a fresh array with equal
    contents and reports CSS_NOMEM when the allocation fails. -/
theorem grid_copy_shares_track_storage :
    (css__copy_grid_template_columns c5_from c5_dst).gtc_tracks = some 0 ∧
    c5_from.gtc_tracks = some 0 ∧
    c5_from.sid ≠ c5_dst.sid ∧
    css__copy_transform c5_heap true c5_from c5_dst =
      Except.ok
        (⟨1, CSS_TRANSFORM_FUNCTIONS, 1, some 1, CSS_GRID_TEMPLATE_NONE, none⟩,
          ⟨[[⟨TRANSFORM_TRANSLATE, 1024, UNIT_PX, 0, UNIT_PX⟩],
            [⟨TRANSFORM_TRANSLATE, 1024, UNIT_PX, 0, UNIT_PX⟩]],
            [[⟨102400, UNIT_PX⟩, ⟨0, 0⟩]]⟩) ∧
    (some 1 : Option Nat) ≠ c5_from.transform_funcs ∧
    css__copy_transform c5_heap false c5_from c5_dst =
      Except.error css_error.CSS_NOMEM :=
  ⟨rfl, rfl, by decide, rfl, by decide, rfl⟩

/-- Inserting an entry into a list keeps, for every z-index value, the
    filtered tie class intact: the inserted entry lands in front of the
    ties already present exactly when it carries that z-index (it was
    inserted earlier in original order). -/
theorem stacking_orderedInsert_filter (a : stacking_entry) (l : List stacking_entry) (z0 : Int) :
    (List.orderedInsert stacking_le a l).filter (fun x => x.z_index == z0) =
      if a.z_index = z0 then a :: l.filter (fun x => x.z_index == z0)
      else l.filter (fun x => x.z_index == z0) := by
  induction l with
  | nil =>
    by_cases ha : a.z_index = z0 <;> simp [List.orderedInsert, List.filter_cons, ha]
  | cons b t ih =>
    by_cases hab : stacking_le a b
    · rw [List.orderedInsert, if_pos hab]
      by_cases ha : a.z_index = z0 <;> simp [List.filter_cons, ha]
    · rw [List.orderedInsert, if_neg hab]
      have hb : b.z_index < a.z_index := lt_of_not_le hab
      by_cases ha : a.z_index = z0
      · have hbz : ¬ (b.z_index = z0) := by omega
        simp [List.filter_cons, hbz, ih, ha]
      · by_cases hbz : b.z_index = z0 <;> simp [List.filter_cons, hbz, ih, ha]

/-- The stacking sort is stable: for every z-index value, the entries
    carrying it appear in the output in exactly their input order. -/
theorem stacking_sort_filter (l : List stacking_entry) (z0 : Int) :
    (stacking_context_sort l).filter (fun x => x.z_index == z0) =
      l.filter (fun x => x.z_index == z0) := by
  induction l with
  | nil => rfl
  | cons a t ih =>
    show (List.orderedInsert stacking_le a
      (List.insertionSort stacking_le t)).filter (fun x => x.z_index == z0) = _
    rw [stacking_orderedInsert_filter]
    simp only [stacking_context_sort] at ih
    by_cases ha : a.z_index = z0 <;> simp [List.filter_cons, ha, ih]

/-- C6: the stacking sort orders entries ascending by z-index, keeps ties
    in original insertion order, is idempotent on sorted input, succeeds
    on empty and singleton inputs, and places every negative z-index
    entry strictly before every zero-or-positive one; the three concrete
    orderings of the stacking test suite come out as expected. -/
theorem stacking_sort_spec (l : List stacking_entry) (e : stacking_entry) (z0 : Int) :
    List.Sorted stacking_le (stacking_context_sort l) ∧
    (stacking_context_sort l).filter (fun x => x.z_index == z0) =
      l.filter (fun x => x.z_index == z0) ∧
    stacking_context_sort (stacking_context_sort l) = stacking_context_sort l ∧
    stacking_context_sort [] = [] ∧
    stacking_context_sort [e] = [e] ∧
    (∀ i j : Fin (stacking_context_sort l).length, i ≤ j →
      0 ≤ ((stacking_context_sort l).get i).z_index →
      0 ≤ ((stacking_context_sort l).get j).z_index) ∧
    (stacking_context_sort c6_entries).map (fun x => x.z_index) =
      [-100, -5, -1, 0, 5, 10] ∧
    stacking_context_sort
      [⟨1, 5, 0, 0⟩, ⟨2, 5, 0, 0⟩, ⟨3, 5, 0, 0⟩, ⟨4, 5, 0, 0⟩] =
      [⟨1, 5, 0, 0⟩, ⟨2, 5, 0, 0⟩, ⟨3, 5, 0, 0⟩, ⟨4, 5, 0, 0⟩] ∧
    (stacking_context_sort
      [⟨1, 5, 0, 0⟩, ⟨2, -10, 0, 0⟩, ⟨3, 100, 0, 0⟩, ⟨4, 0, 0, 0⟩, ⟨5, -5, 0, 0⟩]).map
      (fun x => x.z_index) = [-10, -5, 0, 5, 100] := by
  refine ⟨List.sorted_insertionSort _ l, stacking_sort_filter l z0,
    List.Sorted.insertionSort_eq (List.sorted_insertionSort _ l), rfl, rfl, ?_,
    by decide, by decide, by decide⟩
  intro i j hij hi
  rcases eq_or_lt_of_le hij with he | hlt
  · rw [← he]; exact hi
  · exact le_trans hi
      (List.pairwise_iff_get.mp (List.sorted_insertionSort _ l) i j hlt)

/-- Witness for C6 at the six-entry test input: entry 3 of the sorted
    output is non-negative, hence so is entry 5. -/
theorem stacking_sort_spec_witness :
    0 ≤ ((stacking_context_sort c6_entries).get ⟨5, by decide⟩).z_index :=
  (stacking_sort_spec c6_entries ⟨0, 0, 0, 0⟩ 0).2.2.2.2.2.1 ⟨3, by decide⟩ ⟨5, by decide⟩
    (by decide) (by decide)

/-- The post-loop tail of the transform parser rewinds the cursor to the
    overall entry position whenever it fails. -/
theorem transformFinish_invalid_rewind (o cp c : Nat) (s : css_style) (fc : Nat) :
    (transformFinish o cp c s fc).err = css_error.CSS_INVALID →
    (transformFinish o cp c s fc).ctx = o := by
  unfold transformFinish
  split_ifs <;> simp

/-- Unfolding: the transform loop at the end of input runs the
    post-loop tail. -/
theorem transformLoop_eq_none (pus : UnitSpec) (v : List css_token)
    (o cp ctx : Nat) (s : css_style) (fc : Nat) (h : v[ctx]? = none) :
    transformLoop pus v o cp ctx s fc = transformFinish o cp ctx s fc := by
  rw [transformLoop]
  split
  · rfl
  · next tok heq => rw [h] at heq; exact Option.noConfusion heq

/-- Unfolding: the transform loop at a present token. -/
theorem transformLoop_eq_some (pus : UnitSpec) (v : List css_token)
    (o cp ctx : Nat) (s : css_style) (fc : Nat) (tok : css_token)
    (h : v[ctx]? = some tok) :
    transformLoop pus v o cp ctx s fc =
      (if tok.ttype ≠ css_token_type.functionTok then
        transformFinish o cp (consumeWhitespace v (ctx + 1) - 1) s fc
      else
        match transformFuncSpec tok.text with
        | none => ⟨css_error.CSS_INVALID, o, s⟩
        | some (ftype, nargs, apct, iang) =>
          let r := parse_transform_function pus v
            (consumeWhitespace v (ctx + 1)) s ftype nargs apct iang
          if r.err ≠ css_error.CSS_OK then ⟨r.err, o, s⟩
          else transformLoop pus v o cp
            (consumeWhitespace v (consumeWhitespace v (ctx + 1) + r.delta))
            r.style (fc + 1)) := by
  rw [transformLoop]
  split
  · next heq => rw [h] at heq; exact Option.noConfusion heq
  · next tok2 heq => rw [h] at heq; cases heq; rfl

/-- The transform function-list loop rewinds the cursor to the overall
    entry position whenever it reports CSS_INVALID. -/
theorem transformLoop_invalid_rewind (pus : UnitSpec) (v : List css_token)
    (orig_ctx count_pos ctx : Nat) (style : css_style) (func_count : Nat) :
    (transformLoop pus v orig_ctx count_pos ctx style func_count).err = css_error.CSS_INVALID →
    (transformLoop pus v orig_ctx count_pos ctx style func_count).ctx = orig_ctx := by
  have main : ∀ (n ctx : Nat) (s : css_style) (fc : Nat), v.length - ctx ≤ n →
      (transformLoop pus v orig_ctx count_pos ctx s fc).err = css_error.CSS_INVALID →
      (transformLoop pus v orig_ctx count_pos ctx s fc).ctx = orig_ctx := by
    intro n
    induction n with
    | zero =>
      intro ctx s fc hn
      have hnone : v[ctx]? = none := List.getElem?_eq_none (by omega)
      rw [transformLoop_eq_none pus v orig_ctx count_pos ctx s fc hnone]
      exact transformFinish_invalid_rewind orig_ctx count_pos ctx s fc
    | succ n ih =>
      intro ctx s fc hn
      cases hv : v[ctx]? with
      | none =>
        rw [transformLoop_eq_none pus v orig_ctx count_pos ctx s fc hv]
        exact transformFinish_invalid_rewind orig_ctx count_pos ctx s fc
      | some tok =>
        have hlt : ctx < v.length := by
          by_contra hc
          rw [List.getElem?_eq_none (Nat.le_of_not_lt hc)] at hv
          exact Option.noConfusion hv
        rw [transformLoop_eq_some pus v orig_ctx count_pos ctx s fc tok hv]
        split_ifs with hnf
        · exact transformFinish_invalid_rewind orig_ctx count_pos _ s fc
        · cases hspec : transformFuncSpec tok.text with
          | none => intro _; rfl
          | some spec =>
            obtain ⟨ftype, nargs, apct, iang⟩ := spec
            simp only
            split_ifs with herr
            · intro _; rfl
            · apply ih
              have h1 : ctx + 1 ≤ consumeWhitespace v (ctx + 1) :=
                Nat.le_add_right _ _
              have h2 : consumeWhitespace v (ctx + 1) ≤
                  consumeWhitespace v (ctx + 1) +
                    (parse_transform_function pus v (consumeWhitespace v (ctx + 1)) s
                      ftype nargs apct iang).delta :=
                Nat.le_add_right _ _
              have h3 : consumeWhitespace v (ctx + 1) +
                    (parse_transform_function pus v (consumeWhitespace v (ctx + 1)) s
                      ftype nargs apct iang).delta ≤
                  consumeWhitespace v
                    (consumeWhitespace v (ctx + 1) +
                      (parse_transform_function pus v (consumeWhitespace v (ctx + 1)) s
                        ftype nargs apct iang).delta) :=
                Nat.le_add_right _ _
              omega
  exact main (v.length - ctx) ctx style func_count (le_refl _)

/-- css__parse_gap on invalid input restores the cursor and emits
    nothing. -/
theorem css__parse_gap_invalid_rewind (pus : UnitSpec) (v : List css_token)
    (ctx0 : Nat) (s : css_style) :
    (css__parse_gap pus v ctx0 s).err = css_error.CSS_INVALID →
    (css__parse_gap pus v ctx0 s).ctx = ctx0 ∧ (css__parse_gap pus v ctx0 s).style = s := by
  unfold css__parse_gap
  split
  · intro _; exact ⟨rfl, rfl⟩
  · split
    · intro h; exact absurd h (by simp)
    · split_ifs with hnormal
      · intro h; exact absurd h (by simp)
      · split
        · intro _; exact ⟨rfl, rfl⟩
        · split_ifs with hunit hneg
          · intro _; exact ⟨rfl, rfl⟩
          · intro _; exact ⟨rfl, rfl⟩
          · intro h; exact absurd h (by simp)

/-- C2 (amended): on malformed input (a CSS_INVALID report) both
    embedded property value parsers restore the read cursor exactly to
    its position before the attempt; css__parse_gap additionally leaves
    the output style untouched.  (css__parse_transform does not: see the
    counterexample theorem.) -/
theorem parse_invalid_cursor_rewind (pus : UnitSpec) (v : List css_token)
    (ctx0 : Nat) (s : css_style) :
    ((css__parse_transform pus v ctx0 s).err = css_error.CSS_INVALID →
      (css__parse_transform pus v ctx0 s).ctx = ctx0) ∧
    ((css__parse_gap pus v ctx0 s).err = css_error.CSS_INVALID →
      (css__parse_gap pus v ctx0 s).ctx = ctx0 ∧
      (css__parse_gap pus v ctx0 s).style = s) := by
  refine ⟨?_, css__parse_gap_invalid_rewind pus v ctx0 s⟩
  unfold css__parse_transform
  split
  · intro _; rfl
  · split
    · intro h; exact absurd h (by simp)
    · split_ifs with hnone
      · intro h; exact absurd h (by simp)
      · exact transformLoop_invalid_rewind pus v ctx0 _ ctx0 _ 0

/-- Witness for C2 at empty input: css__parse_gap fails and leaves
    cursor and style untouched. -/
theorem parse_invalid_cursor_rewind_witness :
    (css__parse_gap pusFail [] 0 ⟨[]⟩).ctx = 0 ∧
    (css__parse_gap pusFail [] 0 ⟨[]⟩).style = ⟨[]⟩ :=
  (parse_invalid_cursor_rewind pusFail [] 0 ⟨[]⟩).2 rfl

/-- C2 counterexample: css__parse_transform on the malformed value
    foo( reports CSS_INVALID with the cursor rewound, yet the output
    style has already received the transform opcode word and the count
    placeholder: the emission is not all-or-nothing. -/
theorem parse_transform_partial_emission :
    (css__parse_transform pusFail [mkFunc "foo"] 0 ⟨[]⟩).err = css_error.CSS_INVALID ∧
    (css__parse_transform pusFail [mkFunc "foo"] 0 ⟨[]⟩).ctx = 0 ∧
    (css__parse_transform pusFail [mkFunc "foo"] 0 ⟨[]⟩).style.bytecode =
      [css_code.opv CSS_PROP_TRANSFORM 0 (TRANSFORM_NONE + 1), css_code.raw 0] ∧
    (css__parse_transform pusFail [mkFunc "foo"] 0 ⟨[]⟩).style ≠ (⟨[]⟩ : css_style) := by
  have h0 : ([mkFunc "foo"] : List css_token)[0]? = some (mkFunc "foo") := rfl
  have e1 : get_css_flag_value (mkFunc "foo") = none := rfl
  have hloop : transformLoop pusFail [mkFunc "foo"] 0 1 0
      ⟨[css_code.opv CSS_PROP_TRANSFORM 0 (TRANSFORM_NONE + 1), css_code.raw 0]⟩ 0 =
      ⟨css_error.CSS_INVALID, 0,
        ⟨[css_code.opv CSS_PROP_TRANSFORM 0 (TRANSFORM_NONE + 1), css_code.raw 0]⟩⟩ := by
    rw [transformLoop_eq_some pusFail [mkFunc "foo"] 0 1 0
      ⟨[css_code.opv CSS_PROP_TRANSFORM 0 (TRANSFORM_NONE + 1), css_code.raw 0]⟩ 0
      (mkFunc "foo") h0]
    decide
  have step : css__parse_transform pusFail [mkFunc "foo"] 0 ⟨[]⟩ =
      ⟨css_error.CSS_INVALID, 0,
        ⟨[css_code.opv CSS_PROP_TRANSFORM 0 (TRANSFORM_NONE + 1), css_code.raw 0]⟩⟩ := by
    unfold css__parse_transform
    simp only [h0, e1]
    rw [if_neg (by decide :
      ¬((mkFunc "foo").ttype = css_token_type.identTok ∧ (mkFunc "foo").text = "none"))]
    exact hloop
  rw [step]
  refine ⟨rfl, rfl, rfl, by decide⟩

/-- Unfolding: the gradient skip loop stops at depth zero. -/
theorem skipGradient_eq_zero (v : List css_token) (ctx : Nat) :
    skipGradient v ctx 0 = some ctx := by
  rw [skipGradient]
  simp

/-- Unfolding: the gradient skip loop at positive depth consumes the
    token under the cursor and adjusts the depth. -/
theorem skipGradient_eq_step (v : List css_token) (ctx d : Nat) (t : css_token)
    (hd : d ≠ 0) (hv : v[ctx]? = some t) :
    skipGradient v ctx d =
      skipGradient v (ctx + 1)
        (if t.ttype = css_token_type.functionTok then d + 1
         else if tokenIsChar t ')' then d - 1
         else d) := by
  rw [skipGradient]
  rw [if_neg hd]
  split
  · next heq => rw [hv] at heq; exact Option.noConfusion heq
  · next t2 heq => rw [hv] at heq; cases heq; rfl

/-- The gradient skip loop, started at depth d, stops exactly after the
    prefix over which the declarative depth count first returns to
    zero. -/
theorem skipGradient_of_depth (v : List css_token) : ∀ (n ctx d : Nat),
    n ≤ v.length - ctx →
    (∀ m, m < n → 0 < (d : Int) + (((v.drop ctx).take m).map gradStepVal).sum) →
    (d : Int) + (((v.drop ctx).take n).map gradStepVal).sum = 0 →
    skipGradient v ctx d = some (ctx + n) := by
  intro n
  induction n with
  | zero =>
    intro ctx d _ _ hz
    simp only [List.take_zero, List.map_nil, List.sum_nil, add_zero] at hz
    have hd0 : d = 0 := by exact_mod_cast hz
    rw [hd0, skipGradient_eq_zero, Nat.add_zero]
  | succ n ih =>
    intro ctx d hn hpos hz
    have hdpos : 0 < (d : Int) := by simpa using hpos 0 (Nat.succ_pos n)
    have hd0 : 0 < d := by exact_mod_cast hdpos
    have hd : d ≠ 0 := by omega
    have hlt : ctx < v.length := by omega
    obtain ⟨t, hv⟩ : ∃ t, v[ctx]? = some t := ⟨v[ctx], List.getElem?_eq_getElem hlt⟩
    have hget : v[ctx] = t := by
      have := List.getElem?_eq_getElem hlt
      rw [hv] at this
      exact (Option.some_inj.mp this).symm
    have hdrop : v.drop ctx = t :: v.drop (ctx + 1) := by
      rw [List.drop_eq_getElem_cons hlt, hget]
    rw [skipGradient_eq_step v ctx d t hd hv]
    have hstep : ((if t.ttype = css_token_type.functionTok then d + 1
        else if tokenIsChar t ')' then d - 1
        else d : Nat) : Int) = (d : Int) + gradStepVal t := by
      simp only [gradStepVal]
      split_ifs <;> omega
    have hsum : ∀ m : Nat, (((v.drop (ctx + 1)).take m).map gradStepVal).sum =
        (((v.drop ctx).take (m + 1)).map gradStepVal).sum - gradStepVal t := by
      intro m
      rw [hdrop]
      simp only [List.take_succ_cons, List.map_cons, List.sum_cons]
      ring
    have hrec := ih (ctx + 1)
      (if t.ttype = css_token_type.functionTok then d + 1
        else if tokenIsChar t ')' then d - 1
        else d)
      (by omega)
      (by
        intro m hm
        rw [hsum m, hstep]
        have := hpos (m + 1) (by omega)
        linarith)
      (by
        rw [hsum n, hstep]
        linarith)
    rw [hrec]
    congr 1
    omega

/-- C8: a syntactically well-formed linear-gradient() or
    radial-gradient() value is accepted (CSS_OK), all its tokens through
    the matching closing parenthesis are consumed (the cursor lands just
    past the prefix over which the nesting depth first returns to zero),
    and the property receives the fallback value none. -/
theorem background_image_gradient_fallback (resolve : UriResolve)
    (v : List css_token) (ctx0 n : Nat) (s : css_style) (t : css_token)
    (hv : v[ctx0]? = some t) (hf : t.ttype = css_token_type.functionTok)
    (hname : t.text = "linear-gradient" ∨ t.text = "radial-gradient")
    (hwf : gradWellFormed (v.drop (ctx0 + 1)) n) :
    css__parse_background_image resolve v ctx0 s =
      ⟨css_error.CSS_OK, ctx0 + 1 + n,
        css__stylesheet_style_append s
          (css_code.opv CSS_PROP_BACKGROUND_IMAGE 0 BACKGROUND_IMAGE_NONE)⟩ := by
  obtain ⟨hlen, hpos, hzero⟩ := hwf
  have hskip : skipGradient v (ctx0 + 1) 1 = some (ctx0 + 1 + n) := by
    apply skipGradient_of_depth v n (ctx0 + 1) 1
    · have := List.length_drop (ctx0 + 1) v
      omega
    · intro m hm
      have := hpos m hm
      simpa [gradDepth] using this
    · simpa [gradDepth] using hzero
  unfold css__parse_background_image
  simp only [hv, hf]
  rw [if_neg (by simp), if_neg (by simp), if_pos (And.intro trivial hname)]
  simp only [hskip]

/-- Witness for C8: linear-gradient(red, rgb(0, 0, 0)) is accepted, its
    eleven tokens are fully consumed, and none is stored. -/
theorem background_image_gradient_fallback_witness :
    css__parse_background_image resolveOk
      [mkFunc "linear-gradient", mkIdent "red", mkChar ',', mkFunc "rgb",
        mkNum 0, mkChar ',', mkNum 0, mkChar ',', mkNum 0, mkChar ')', mkChar ')']
      0 ⟨[]⟩ =
      ⟨css_error.CSS_OK, 11,
        css__stylesheet_style_append ⟨[]⟩
          (css_code.opv CSS_PROP_BACKGROUND_IMAGE 0 BACKGROUND_IMAGE_NONE)⟩ :=
  background_image_gradient_fallback resolveOk
    [mkFunc "linear-gradient", mkIdent "red", mkChar ',', mkFunc "rgb",
      mkNum 0, mkChar ',', mkNum 0, mkChar ',', mkNum 0, mkChar ')', mkChar ')']
    0 10 ⟨[]⟩ (mkFunc "linear-gradient") rfl rfl (Or.inl rfl) (by decide)

/-- Unfolding: the grid track loop stops once MAX_GRID_TRACKS tracks are
    collected. -/
theorem gridRowsLoop_eq_stop (pus : UnitSpec) (v : List css_token) (ctx : Nat)
    (tracks : List (Int × Nat)) (h : ¬(tracks.length < MAX_GRID_TRACKS)) :
    gridRowsLoop pus v ctx tracks = grid_loop_result.done ctx tracks := by
  rw [gridRowsLoop]
  rw [if_neg h]

/-- Unfolding: the grid track loop stops at the end of input. -/
theorem gridRowsLoop_eq_none (pus : UnitSpec) (v : List css_token) (ctx : Nat)
    (tracks : List (Int × Nat)) (hlen : tracks.length < MAX_GRID_TRACKS)
    (h : v[ctx]? = none) :
    gridRowsLoop pus v ctx tracks = grid_loop_result.done ctx tracks := by
  rw [gridRowsLoop]
  rw [if_pos hlen]
  split
  · rfl
  · next t heq => rw [h] at heq; exact Option.noConfusion heq

/-- Unfolding: the grid track loop at a present token follows the unit
    specifier, falling back to the auto keyword on CSS_INVALID. -/
theorem gridRowsLoop_eq_some (pus : UnitSpec) (v : List css_token) (ctx : Nat)
    (tracks : List (Int × Nat)) (t : css_token)
    (hlen : tracks.length < MAX_GRID_TRACKS) (h : v[ctx]? = some t) :
    gridRowsLoop pus v ctx tracks =
      (match pus v ctx with
      | Except.ok (len, unit, extra) =>
        gridRowsLoop pus v (ctx + 1 + extra) (tracks ++ [(len, unit)])
      | Except.error css_error.CSS_INVALID =>
        if t.ttype = css_token_type.identTok ∧ t.text = "auto" then
          gridRowsLoop pus v (ctx + 1) (tracks ++ [(INTTOFIX 1, UNIT_FR)])
        else grid_loop_result.done ctx tracks
      | Except.error e => grid_loop_result.fail e) := by
  rw [gridRowsLoop]
  rw [if_pos hlen]
  split
  · next heq => rw [h] at heq; exact Option.noConfusion heq
  · next t2 heq =>
    rw [h] at heq
    cases heq
    simp only [h]

/-- The grid track loop never accumulates past MAX_GRID_TRACKS: whatever
    the input and the unit specifier, a loop started within the bound
    ends within the bound. -/
theorem gridRowsLoop_done_length (pus : UnitSpec) (v : List css_token) :
    ∀ (n ctx : Nat) (acc : List (Int × Nat)) (c : Nat) (ts : List (Int × Nat)),
    v.length - ctx ≤ n → acc.length ≤ MAX_GRID_TRACKS →
    gridRowsLoop pus v ctx acc = grid_loop_result.done c ts →
    ts.length ≤ MAX_GRID_TRACKS := by
  intro n
  induction n with
  | zero =>
    intro ctx acc c ts hn hacc hrun
    by_cases hlen : acc.length < MAX_GRID_TRACKS
    · rw [gridRowsLoop_eq_none pus v ctx acc hlen
        (List.getElem?_eq_none (by omega))] at hrun
      cases hrun
      exact hacc
    · rw [gridRowsLoop_eq_stop pus v ctx acc hlen] at hrun
      cases hrun
      exact hacc
  | succ n ih =>
    intro ctx acc c ts hn hacc hrun
    by_cases hlen : acc.length < MAX_GRID_TRACKS
    · cases hv : v[ctx]? with
      | none =>
        rw [gridRowsLoop_eq_none pus v ctx acc hlen hv] at hrun
        cases hrun
        exact hacc
      | some t =>
        have hlt : ctx < v.length := by
          by_contra hc
          rw [List.getElem?_eq_none (Nat.le_of_not_lt hc)] at hv
          exact Option.noConfusion hv
        rw [gridRowsLoop_eq_some pus v ctx acc t hlen hv] at hrun
        cases hp : pus v ctx with
        | ok r =>
          obtain ⟨len, unit, extra⟩ := r
          rw [hp] at hrun
          exact ih (ctx + 1 + extra) (acc ++ [(len, unit)]) c ts (by omega)
            (by simpa using hlen) hrun
        | error e =>
          rw [hp] at hrun
          cases e with
          | CSS_INVALID =>
            by_cases hauto : t.ttype = css_token_type.identTok ∧ t.text = "auto"
            · rw [if_pos hauto] at hrun
              exact ih (ctx + 1) (acc ++ [(INTTOFIX 1, UNIT_FR)]) c ts (by omega)
                (by simpa using hlen) hrun
            · rw [if_neg hauto] at hrun
              cases hrun
              exact hacc
          | CSS_OK => exact absurd hrun (by simp)
          | CSS_NOMEM => exact absurd hrun (by simp)
    · rw [gridRowsLoop_eq_stop pus v ctx acc hlen] at hrun
      cases hrun
      exact hacc

/-- Running the grid track loop over a stream of pixel NUMBER tokens
    collects one track per token until the MAX_GRID_TRACKS bound, leaving
    the remaining tokens unconsumed. -/
theorem gridRowsLoop_replicate (N : Nat) :
    ∀ (j k : Nat) (acc : List (Int × Nat)),
    acc.length + j = MAX_GRID_TRACKS → k + j ≤ N →
    gridRowsLoop pusNum (List.replicate N (mkNum 102400)) k acc =
      grid_loop_result.done (k + j) (acc ++ List.replicate j ((102400 : Int), UNIT_PX)) := by
  intro j
  induction j with
  | zero =>
    intro k acc hacc hk
    rw [gridRowsLoop_eq_stop _ _ k acc (by omega)]
    simp
  | succ j ih =>
    intro k acc hacc hk
    have hklt : k < N := by omega
    have hv : (List.replicate N (mkNum 102400))[k]? = some (mkNum 102400) := by
      simp [List.getElem?_replicate, hklt]
    have hpus : pusNum (List.replicate N (mkNum 102400)) k =
        Except.ok ((102400 : Int), UNIT_PX, 0) := by
      simp only [pusNum, hv]
      simp [mkNum]
    rw [gridRowsLoop_eq_some pusNum _ k acc (mkNum 102400) (by omega) hv]
    simp only [hpus, Nat.add_zero]
    have hrec := ih (k + 1) (acc ++ [((102400 : Int), UNIT_PX)])
      (by simp; omega) (by omega)
    rw [hrec]
    congr 1
    · omega
    · simp [List.replicate_succ, List.append_assoc]

/-- C10: grid-template-rows parsing accepts at most MAX_GRID_TRACKS (32)
    tracks: a stream of 33 or more track tokens yields CSS_OK with
    exactly 32 tracks, the cursor stopping after the 32nd and the rest
    silently ignored; an auto track keyword is stored as a 1fr flexible
    track, both as the leading keyword and inside a track list. -/
theorem grid_template_rows_track_cap :
    (∀ (pus : UnitSpec) (v : List css_token) (ctx c : Nat) (ts : List (Int × Nat)),
      gridRowsLoop pus v ctx [] = grid_loop_result.done c ts →
      ts.length ≤ MAX_GRID_TRACKS) ∧
    (∀ (n : Nat) (s : css_style), 33 ≤ n →
      css__parse_grid_template_rows pusNum (List.replicate n (mkNum 102400)) 0 s =
        ⟨css_error.CSS_OK, 32,
          emit_tracks s (List.replicate 32 ((102400 : Int), UNIT_PX))⟩) ∧
    (∀ (pus : UnitSpec) (s : css_style),
      css__parse_grid_template_rows pus [mkIdent "auto"] 0 s =
        ⟨css_error.CSS_OK, 1, emit_tracks s [(INTTOFIX 1, UNIT_FR)]⟩) ∧
    css__parse_grid_template_rows pusNum [mkNum 102400, mkIdent "auto"] 0 ⟨[]⟩ =
      ⟨css_error.CSS_OK, 2,
        emit_tracks ⟨[]⟩ [((102400 : Int), UNIT_PX), (INTTOFIX 1, UNIT_FR)]⟩ := by
  refine ⟨?_, ?_, ?_, ?_⟩
  · intro pus v ctx c ts hrun
    exact gridRowsLoop_done_length pus v (v.length - ctx) ctx [] c ts (le_refl _)
      (by simp [MAX_GRID_TRACKS]) hrun
  · intro n s hn
    have hv0 : (List.replicate n (mkNum 102400))[0]? = some (mkNum 102400) := by
      simp [List.getElem?_replicate]
      omega
    have hloop := gridRowsLoop_replicate n 32 0 [] (by simp [MAX_GRID_TRACKS]) (by omega)
    unfold css__parse_grid_template_rows
    simp only [hv0]
    rw [if_neg (by simp [mkNum]), if_neg (by simp [mkNum]), if_neg (by simp [mkNum]),
      if_neg (by simp [mkNum]), if_neg (by simp [mkNum]), if_neg (by simp [mkNum])]
    simp only [Nat.zero_add] at hloop
    rw [hloop]
    simp only [List.nil_append]
    rw [if_neg (by decide : ¬(List.replicate 32 ((102400 : Int), UNIT_PX) = []))]
  · intro pus s
    rfl
  · have hv0 : ([mkNum 102400, mkIdent "auto"] : List css_token)[0]? =
        some (mkNum 102400) := rfl
    have hv1 : ([mkNum 102400, mkIdent "auto"] : List css_token)[1]? =
        some (mkIdent "auto") := rfl
    have hv2 : ([mkNum 102400, mkIdent "auto"] : List css_token)[2]? = none := rfl
    have hp0 : pusNum [mkNum 102400, mkIdent "auto"] 0 =
        Except.ok ((102400 : Int), UNIT_PX, 0) := by
      simp only [pusNum, hv0]
      simp [mkNum]
    have hp1 : pusNum [mkNum 102400, mkIdent "auto"] 1 =
        Except.error css_error.CSS_INVALID := by
      simp only [pusNum, hv1]
      simp [mkIdent]
    have l2 : gridRowsLoop pusNum [mkNum 102400, mkIdent "auto"] 2
        [((102400 : Int), UNIT_PX), (INTTOFIX 1, UNIT_FR)] =
        grid_loop_result.done 2 [((102400 : Int), UNIT_PX), (INTTOFIX 1, UNIT_FR)] :=
      gridRowsLoop_eq_none pusNum _ 2 _ (by simp [MAX_GRID_TRACKS]) hv2
    have l1 : gridRowsLoop pusNum [mkNum 102400, mkIdent "auto"] 1
        [((102400 : Int), UNIT_PX)] =
        grid_loop_result.done 2 [((102400 : Int), UNIT_PX), (INTTOFIX 1, UNIT_FR)] := by
      rw [gridRowsLoop_eq_some pusNum _ 1 _ (mkIdent "auto") (by simp [MAX_GRID_TRACKS]) hv1]
      simp only [hp1]
      rw [if_pos (by simp [mkIdent])]
      exact l2
    have l0 : gridRowsLoop pusNum [mkNum 102400, mkIdent "auto"] 0 [] =
        grid_loop_result.done 2 [((102400 : Int), UNIT_PX), (INTTOFIX 1, UNIT_FR)] := by
      rw [gridRowsLoop_eq_some pusNum _ 0 _ (mkNum 102400) (by simp [MAX_GRID_TRACKS]) hv0]
      simp only [hp0, Nat.add_zero]
      exact l1
    unfold css__parse_grid_template_rows
    simp only [hv0]
    rw [if_neg (by simp [mkNum]), if_neg (by simp [mkNum]), if_neg (by simp [mkNum]),
      if_neg (by simp [mkNum]), if_neg (by simp [mkNum]), if_neg (by simp [mkNum])]
    rw [l0]
    rfl

/-- Witness for C10: a 33-track declaration parses to exactly 32 tracks
    with CSS_OK. -/
theorem grid_template_rows_track_cap_witness :
    css__parse_grid_template_rows pusNum (List.replicate 33 (mkNum 102400)) 0 ⟨[]⟩ =
      ⟨css_error.CSS_OK, 32,
        emit_tracks ⟨[]⟩ (List.replicate 32 ((102400 : Int), UNIT_PX))⟩ :=
  grid_template_rows_track_cap.2.1 33 ⟨[]⟩ (by decide)
